import Mathlib

/-!
Shallow embedding of the EverMemOS evaluation pipeline orchestrator
(evaluation/src/core/pipeline.py) and of the Memu adapter search path
(evaluation/src/adapters/memu_adapter.py), together with theorems that
settle the specification claims about them.

Modelling conventions:
  * Python dictionaries used as metadata become association lists over an
    inductive value type `MVal`.
  * The serialization helpers `_search_result_to_dict` and
    `_dict_to_search_result` (and the answer/eval analogues) are exact
    field-for-field inverses in the source, so checkpoint payloads and
    persisted files are modelled as carrying the result objects directly.
  * Python object mutation is modelled by returning, next to the dataset
    the pipeline continues with, the state the caller-supplied dataset
    object has after the pre-processing step (`PreprocessResult`).
  * Python locals that may be unbound (the `search_results` and
    `answer_results` variables of `Pipeline.run`) are modelled by `LVar`,
    with `unbound` triggering an UnboundLocalError on access and `pynone`
    (Python `None`) triggering a TypeError when iterated.
-/

namespace EverMem

/-- Values stored in the metadata mappings of the data model. -/
inductive MVal where
  | vs (v : String)
  | vb (v : Bool)
  | vn (v : Nat)
  | vr (v : Rat)
  | vls (v : List String)
deriving DecidableEq, Repr

/-- A metadata mapping, modelled as an association list. -/
def MetaMap := List (String × MVal)
deriving DecidableEq, Repr

/-- Dictionary lookup, `d.get(k)` returning `None` when the key is absent. -/
def metaGet (m : MetaMap) (k : String) : Option MVal :=
  match List.find? (fun p => p.1 == k) m with
  | some p => some p.2
  | none => none

/-- Dictionary update `{**m, k: v}`. -/
def metaInsert (m : MetaMap) (k : String) (v : MVal) : MetaMap :=
  List.filter (fun p => p.1 != k) m ++ [(k, v)]

/-- A single message of a conversation (data_models.Message). -/
structure Message where
  speaker_name : String
  role : String
  timestamp : Option String
  content : String
deriving DecidableEq, Repr

/-- A conversation of the dataset (data_models.Conversation). -/
structure Conversation where
  conversation_id : String
  messages : List Message
  metadata : MetaMap
deriving DecidableEq, Repr

/-- A question/answer pair of the dataset (data_models.QAPair); the
category tag is the string the pipeline filter compares against. -/
structure QAPair where
  question : String
  golden_answer : String
  category : String
  metadata : MetaMap
deriving DecidableEq, Repr

/-- The dataset handed to `Pipeline.run` (data_models.Dataset). -/
structure Dataset where
  dataset_name : String
  conversations : List Conversation
  qa_pairs : List QAPair
  metadata : MetaMap
deriving DecidableEq, Repr

/-- One retrieved item inside a SearchResult (a result dictionary with
content, score, user_id and metadata keys). -/
structure ResultItem where
  content : String
  score : Rat
  user_id : String
  metadata : MetaMap
deriving DecidableEq, Repr

/-- The output of the Search stage for one query (data_models.SearchResult). -/
structure SearchResult where
  query : String
  conversation_id : String
  results : List ResultItem
  retrieval_metadata : MetaMap
deriving DecidableEq, Repr

/-- The output of the Answer stage for one question (data_models.AnswerResult). -/
structure AnswerResult where
  question_id : String
  question : String
  answer : String
  golden_answer : String
  category : String
  conversation_id : String
  formatted_context : String
  metadata : MetaMap
deriving DecidableEq, Repr

/-- The output of the Evaluate stage (data_models.EvaluationResult). -/
structure EvaluationResult where
  total_questions : Nat
  correct : Nat
  accuracy : Rat
  detailed_results : List MetaMap
  metadata : MetaMap
deriving DecidableEq, Repr

/-! ## Pre-processing: smoke-test truncation and category filtering

`Pipeline._apply_smoke_test` and the category-filter block at the start of
`Pipeline.run` (pipeline.py lines 114-142, 364-429). -/

/-- The in-place truncation `first_conv.messages = first_conv.messages[:num_messages]`
performed on the first conversation when `num_messages > 0`. -/
def truncateMessages (c : Conversation) (num_messages : Nat) : Conversation :=
  if num_messages > 0 then { c with messages := c.messages.take num_messages } else c

/-- The QAPairs of the dataset whose `conversation_id` metadata equals the
given conversation id (`_apply_smoke_test`, conv_qa_pairs). -/
def convQAPairs (qas : List QAPair) (conv_id : String) : List QAPair :=
  List.filter (fun qa => metaGet qa.metadata "conversation_id" == some (MVal.vs conv_id)) qas

/-- The QAPairs the smoke test keeps: the first `num_questions` of the first
conversation, or all of them when `num_questions = 0`. -/
def selectedQAPairs (qas : List QAPair) (conv_id : String) (num_questions : Nat) : List QAPair :=
  let conv_qa := convQAPairs qas conv_id
  if num_questions > 0 then conv_qa.take num_questions else conv_qa

/-- `Pipeline._apply_smoke_test`: the Dataset object the method returns.
With no conversations the original dataset object is returned unchanged. -/
def applySmokeTest (d : Dataset) (num_messages num_questions : Nat) : Dataset :=
  match d.conversations with
  | [] => d
  | first_conv :: _ =>
    let conv := truncateMessages first_conv num_messages
    let selected := selectedQAPairs d.qa_pairs first_conv.conversation_id num_questions
    { dataset_name := d.dataset_name ++ "_smoke"
      conversations := [conv]
      qa_pairs := selected
      metadata :=
        metaInsert
          (metaInsert
            (metaInsert d.metadata "smoke_test" (MVal.vb true))
            "smoke_messages"
            (MVal.vn (if num_messages > 0 then num_messages else conv.messages.length)))
          "smoke_questions"
          (MVal.vn (if num_questions > 0 then num_questions else selected.length)) }

/-- The state of the caller-supplied Dataset object after
`_apply_smoke_test` ran: the method truncates `first_conv.messages` in
place, so the original dataset keeps all conversations but its first
conversation has lost the messages beyond `num_messages`. -/
def callerAfterSmoke (d : Dataset) (num_messages : Nat) : Dataset :=
  match d.conversations with
  | [] => d
  | first_conv :: rest =>
    { d with conversations := truncateMessages first_conv num_messages :: rest }

/-- The category filter of `Pipeline.run` (lines 125-133): keep the QAPairs
whose category is not in the filter set.  The source normalises the
configured categories with `str`, so the filter set is modelled as the
already-stringified list. -/
def categoryFilteredQAPairs (qas : List QAPair) (filter_categories : List String) : List QAPair :=
  List.filter (fun qa => !(filter_categories.contains qa.category)) qas

/-- Outcome of the pre-processing phase of `Pipeline.run`: the dataset the
stages run on, and the state of the caller-supplied Dataset object after
the phase (capturing the in-place mutations the source performs). -/
structure PreprocessResult where
  used : Dataset
  callerAfter : Dataset
deriving DecidableEq, Repr

/-- The pre-processing phase of `Pipeline.run` (lines 114-142): optional
smoke-test truncation followed by the optional category filter.  The local
`dataset` variable still aliases the caller object unless the smoke test
replaced it with a fresh Dataset (which it does not when the dataset has
no conversations), so the `dataset.qa_pairs` reassignment performed by the
filter lands on the caller object exactly in the aliased cases. -/
def runPreprocess (d : Dataset) (smoke_test : Bool) (smoke_messages smoke_questions : Nat)
    (filter_categories : List String) : PreprocessResult :=
  let aliased := !smoke_test || d.conversations.isEmpty
  let ds1 := if smoke_test then applySmokeTest d smoke_messages smoke_questions else d
  let caller1 := if smoke_test then callerAfterSmoke d smoke_messages else d
  if filter_categories.isEmpty then
    { used := ds1, callerAfter := caller1 }
  else
    let ds2 := { ds1 with qa_pairs := categoryFilteredQAPairs ds1.qa_pairs filter_categories }
    { used := ds2
      callerAfter := if aliased then { caller1 with qa_pairs := ds2.qa_pairs } else caller1 }

/-! ## The stage machine of `Pipeline.run`

The four-stage gating logic of `Pipeline.run` (pipeline.py lines 144-362)
is embedded as explicit state passing.  Stage executors and the adapter
index builder are external collaborators and enter as oracles; the
persistence layer (ResultSaver files, CheckpointManager record) enters as
an environment, and every externally visible action of the orchestrator is
recorded as an event. -/

/-- A Python local that may be unbound, bound to `None`, or bound to a value. -/
inductive LVar (α : Type) where
  | unbound
  | pynone
  | val (a : α)
deriving DecidableEq, Repr

/-- The value a bound `LVar` passes to a callee (`pynone` is Python `None`). -/
def lvarToOption {α : Type} : LVar α → Option α
  | LVar.val a => some a
  | _ => none

/-- The CheckpointRecord: completed stages plus the optional serialized
intermediate results, as written by `CheckpointManager.save_checkpoint`. -/
structure CheckpointData where
  completed_stages : List String
  search_results : Option (List SearchResult)
  answer_results : Option (List AnswerResult)
  eval_results : Option EvaluationResult
deriving DecidableEq, Repr

/-- The persistent environment a run starts from: the checkpoint record for
the run name (if any) and the persisted stage artifacts (if any). -/
structure Env where
  checkpointRecord : Option CheckpointData
  searchFile : Option (List SearchResult)
  answerFile : Option (List AnswerResult)
deriving DecidableEq, Repr

/-- Pipeline construction parameters relevant to `run`: the checkpoint
switch, the category filter, and the adapter config value
`post_add_wait_seconds` (0 when the key is absent). -/
structure PipelineConfig where
  use_checkpoint : Bool
  filter_categories : List String
  post_add_wait_seconds : Nat
deriving DecidableEq, Repr

/-- The external stage executors and the lazy index builder, as oracles. -/
structure StageOracles where
  searchExec : List QAPair → List SearchResult
  answerExec : List QAPair → Option (List SearchResult) → List AnswerResult
  evalExec : Option (List AnswerResult) → EvaluationResult

/-- Externally visible actions of the orchestrator, in program order. -/
inductive Event where
  | adapterAdd
  | buildLazyIndex
  | runSearchStage
  | runAnswerStage
  | runEvaluateStage
  | postAddWait (seconds : Nat)
  | saveSearchFile (rs : List SearchResult)
  | saveAnswerFile (rs : List AnswerResult)
  | saveEvalFile (r : EvaluationResult)
  | saveReport
  | saveCheckpoint (cp : CheckpointData)
  | loadSearchFile
  | loadAnswerFile
deriving DecidableEq, Repr

/-- The exceptions `Pipeline.run` itself can raise. -/
inductive RunError where
  | fileNotFound (msg : String)
  | typeErrorNoneNotIterable
  | unboundLocalError (name : String)
deriving DecidableEq, Repr

/-- The mutable state of one `run` invocation: emitted events, the
`self.completed_stages` set, the checkpoint payload locals
(`search_results_data`, `answer_results_data`), the stage-output locals
(`search_results`, `answer_results`) and the `results` dictionary entries. -/
structure RunState where
  events : List Event
  completed_stages : List String
  search_results_data : Option (List SearchResult)
  answer_results_data : Option (List AnswerResult)
  search_results : LVar (List SearchResult)
  answer_results : LVar (List AnswerResult)
  results_search : Option (List SearchResult)
  results_answer : Option (List AnswerResult)
  results_eval : Option EvaluationResult
deriving DecidableEq, Repr

/-- Append one event to the trace. -/
def emit (e : Event) (st : RunState) : RunState :=
  { st with events := st.events ++ [e] }

/-- `set.add(s)` on the completed-stages set (modelled as a list without
duplicates; only membership is ever queried). -/
def insertStage (s : String) (l : List String) : List String :=
  if l.contains s then l else l ++ [s]

/-- Python truthiness of the payload locals: `None` and `[]` are falsy. -/
def truthy {α : Type} : Option (List α) → Bool
  | some (_ :: _) => true
  | _ => false

/-- The state `run` starts from (pipeline.py lines 144-146 and the
`self.completed_stages = set()` of the constructor). -/
def initState : RunState :=
  { events := []
    completed_stages := []
    search_results_data := none
    answer_results_data := none
    search_results := LVar.unbound
    answer_results := LVar.unbound
    results_search := none
    results_answer := none
    results_eval := none }

/-- Checkpoint loading (lines 148-156): with checkpointing enabled and a
record present, its completed stages and intermediate payloads are taken
over; otherwise nothing changes. -/
def loadCheckpointStep (cfg : PipelineConfig) (env : Env) (st : RunState) : RunState :=
  if cfg.use_checkpoint then
    match env.checkpointRecord with
    | some cp =>
      { st with
          completed_stages := cp.completed_stages
          search_results_data := cp.search_results
          answer_results_data := cp.answer_results }
    | none => st
  else st

/-- The stage list after the `stages is None` default (line 159). -/
def stageListOf : Option (List String) → List String
  | none => ["add", "search", "answer", "evaluate"]
  | some s => s

/-- The completed-stages set in effect once the checkpoint is loaded. -/
def loadedCompleted (cfg : PipelineConfig) (env : Env) : List String :=
  if cfg.use_checkpoint then
    match env.checkpointRecord with
    | some cp => cp.completed_stages
    | none => []
  else []

/-- Stage 1, Add (lines 164-194).  When the stage runs, `run_add_stage` is
not under src/; modelled from the spec: the executor marks the stage
completed and atomically rewrites the CheckpointRecord with the new stage
plus the intermediate results known so far.  Both skip paths call
`adapter.build_lazy_index` and differ only in logging, so they are
collapsed.  The returned Bool is the `add_just_completed` flag. -/
def addStage (cfg : PipelineConfig) (stages : List String) (st : RunState) :
    RunState × Bool :=
  if stages.contains "add" && !(st.completed_stages.contains "add") then
    let st := emit Event.adapterAdd st
    let st := { st with completed_stages := insertStage "add" st.completed_stages }
    let st :=
      if cfg.use_checkpoint then
        emit (Event.saveCheckpoint
          ⟨st.completed_stages, st.search_results_data, st.answer_results_data, none⟩) st
      else st
    (st, true)
  else
    (emit Event.buildLazyIndex st, false)

/-- The post-add wait (lines 196-225): blocks for the configured number of
seconds only when Add just completed, the wait is positive, and "search"
is among the requested stages. -/
def postAddWaitStep (cfg : PipelineConfig) (stages : List String)
    (add_just_completed : Bool) (st : RunState) : RunState :=
  if add_just_completed then
    if cfg.post_add_wait_seconds > 0 && stages.contains "search" then
      emit (Event.postAddWait cfg.post_add_wait_seconds) st
    else st
  else st

/-- Stage 2, Search (lines 227-277): the three-way gate around
`run_search_stage`.  Note the skip-but-needed guard tests the literal
"eval", not "evaluate", exactly as in the source. -/
def searchStage (cfg : PipelineConfig) (env : Env) (orc : StageOracles) (ds : Dataset)
    (stages : List String) (st : RunState) : Except (RunError × RunState) RunState :=
  if stages.contains "search" && !(st.completed_stages.contains "search") then
    let srs := orc.searchExec ds.qa_pairs
    let st := emit Event.runSearchStage st
    let st := emit (Event.saveSearchFile srs) st
    let st := { st with results_search := some srs, search_results := LVar.val srs }
    let st := { st with completed_stages := insertStage "search" st.completed_stages }
    if cfg.use_checkpoint then
      let st := { st with search_results_data := some srs }
      Except.ok (emit (Event.saveCheckpoint
        ⟨st.completed_stages, some srs, none, none⟩) st)
    else
      Except.ok st
  else if st.completed_stages.contains "search" then
    if truthy st.search_results_data then
      let srs := st.search_results_data.getD []
      Except.ok { st with search_results := LVar.val srs, results_search := some srs }
    else
      match env.searchFile with
      | some srs =>
        Except.ok (emit Event.loadSearchFile
          { st with search_results := LVar.val srs, results_search := some srs })
      | none => Except.ok st
  else if stages.contains "answer" || stages.contains "eval" then
    match env.searchFile with
    | some srs =>
      Except.ok (emit Event.loadSearchFile
        { st with search_results := LVar.val srs, results_search := some srs })
    | none =>
      Except.error
        (RunError.fileNotFound
          "Search results not found. Please run \x27search\x27 stage first.", st)
  else
    Except.ok { st with search_results := LVar.pynone }

/-- The expression
`search_results_data if search_results_data else [... for sr in search_results]`
of the checkpoint saves (lines 304 and 351): falls back to iterating the
`search_results` local, faulting when it is `None` or unbound. -/
def serializeSearchFallback (st : RunState) : Except RunError (List SearchResult) :=
  if truthy st.search_results_data then
    Except.ok (st.search_results_data.getD [])
  else
    match st.search_results with
    | LVar.val l => Except.ok l
    | LVar.pynone => Except.error RunError.typeErrorNoneNotIterable
    | LVar.unbound => Except.error (RunError.unboundLocalError "search_results")

/-- The analogous fallback for the answer payload (line 352). -/
def serializeAnswerFallback (st : RunState) : Except RunError (List AnswerResult) :=
  if truthy st.answer_results_data then
    Except.ok (st.answer_results_data.getD [])
  else
    match st.answer_results with
    | LVar.val l => Except.ok l
    | LVar.pynone => Except.error RunError.typeErrorNoneNotIterable
    | LVar.unbound => Except.error (RunError.unboundLocalError "answer_results")

/-- Stage 3, Answer (lines 279-329): the three-way gate around
`run_answer_stage`, whose call reads the possibly-unbound `search_results`
local, and whose checkpoint save re-supplies the search payload. -/
def answerStage (cfg : PipelineConfig) (env : Env) (orc : StageOracles) (ds : Dataset)
    (stages : List String) (st : RunState) : Except (RunError × RunState) RunState :=
  if stages.contains "answer" && !(st.completed_stages.contains "answer") then
    match st.search_results with
    | LVar.unbound => Except.error (RunError.unboundLocalError "search_results", st)
    | sr =>
      let ars := orc.answerExec ds.qa_pairs (lvarToOption sr)
      let st := emit Event.runAnswerStage st
      let st := emit (Event.saveAnswerFile ars) st
      let st := { st with results_answer := some ars, answer_results := LVar.val ars }
      let st := { st with completed_stages := insertStage "answer" st.completed_stages }
      if cfg.use_checkpoint then
        match serializeSearchFallback st with
        | Except.error e => Except.error (e, st)
        | Except.ok sp =>
          Except.ok (emit (Event.saveCheckpoint
            ⟨st.completed_stages, some sp, some ars, none⟩) st)
      else
        Except.ok st
  else if st.completed_stages.contains "answer" then
    if truthy st.answer_results_data then
      let ars := st.answer_results_data.getD []
      Except.ok { st with answer_results := LVar.val ars, results_answer := some ars }
    else
      match env.answerFile with
      | some ars =>
        Except.ok (emit Event.loadAnswerFile
          { st with answer_results := LVar.val ars, results_answer := some ars })
      | none => Except.ok st
  else if stages.contains "evaluate" then
    match env.answerFile with
    | some ars =>
      Except.ok (emit Event.loadAnswerFile
        { st with answer_results := LVar.val ars, results_answer := some ars })
    | none =>
      Except.error
        (RunError.fileNotFound
          "Answer results not found. Please run \x27answer\x27 stage first.", st)
  else
    Except.ok { st with answer_results := LVar.pynone }

/-- Stage 4, Evaluate (lines 331-356): runs the evaluator on the
possibly-unbound `answer_results` local; its checkpoint save re-supplies
both the search and the answer payloads via the fallback expressions. -/
def evaluateStage (cfg : PipelineConfig) (orc : StageOracles) (stages : List String)
    (st : RunState) : Except (RunError × RunState) RunState :=
  if stages.contains "evaluate" && !(st.completed_stages.contains "evaluate") then
    match st.answer_results with
    | LVar.unbound => Except.error (RunError.unboundLocalError "answer_results", st)
    | ar =>
      let er := orc.evalExec (lvarToOption ar)
      let st := emit Event.runEvaluateStage st
      let st := emit (Event.saveEvalFile er) st
      let st := { st with results_eval := some er }
      let st := { st with completed_stages := insertStage "evaluate" st.completed_stages }
      if cfg.use_checkpoint then
        match serializeSearchFallback st with
        | Except.error e => Except.error (e, st)
        | Except.ok sp =>
          match serializeAnswerFallback st with
          | Except.error e => Except.error (e, st)
          | Except.ok ap =>
            Except.ok (emit (Event.saveCheckpoint
              ⟨st.completed_stages, some sp, some ap, some er⟩) st)
      else
        Except.ok st
  else
    Except.ok st

/-- Stages 2-4 followed by report generation (line 360). -/
def runStages (cfg : PipelineConfig) (env : Env) (orc : StageOracles) (ds : Dataset)
    (stages : List String) (st : RunState) : Except (RunError × RunState) RunState :=
  match searchStage cfg env orc ds stages st with
  | Except.error e => Except.error e
  | Except.ok st =>
    match answerStage cfg env orc ds stages st with
    | Except.error e => Except.error e
    | Except.ok st =>
      match evaluateStage cfg orc stages st with
      | Except.error e => Except.error e
      | Except.ok st => Except.ok (emit Event.saveReport st)

/-- The observable outcome of one `run` call: the state of the
caller-supplied Dataset object afterwards, the event trace, and either the
final state or the exception that aborted the run. -/
structure RunOutcome where
  callerAfter : Dataset
  events : List Event
  result : Except RunError RunState

/-- `Pipeline.run` (pipeline.py lines 80-362). -/
def run (cfg : PipelineConfig) (env : Env) (orc : StageOracles) (d : Dataset)
    (stagesArg : Option (List String)) (smoke_test : Bool)
    (smoke_messages smoke_questions : Nat) : RunOutcome :=
  let pre := runPreprocess d smoke_test smoke_messages smoke_questions cfg.filter_categories
  let st := loadCheckpointStep cfg env initState
  let stages := stageListOf stagesArg
  let p := addStage cfg stages st
  let st := postAddWaitStep cfg stages p.2 p.1
  match runStages cfg env orc pre.used stages st with
  | Except.ok st => ⟨pre.callerAfter, st.events, Except.ok st⟩
  | Except.error (e, st) => ⟨pre.callerAfter, st.events, Except.error e⟩

/-- Whether a run finished without an exception. -/
def runOk (r : RunOutcome) : Bool :=
  match r.result with
  | Except.ok _ => true
  | Except.error _ => false

/-- The exception a run raised, when it raised one. -/
def runErrorOf (r : RunOutcome) : Option RunError :=
  match r.result with
  | Except.ok _ => none
  | Except.error e => some e

/-- The `results["search_results"]` entry of a successful run. -/
def okResultsSearch (r : RunOutcome) : Option (List SearchResult) :=
  match r.result with
  | Except.ok st => st.results_search
  | Except.error _ => none

/-- The `results["eval_result"]` entry of a successful run. -/
def okResultsEval (r : RunOutcome) : Option EvaluationResult :=
  match r.result with
  | Except.ok st => st.results_eval
  | Except.error _ => none

/-- Effect of one persisted action on the durable environment.  Modelled
from the spec: CheckpointManager.save is full-replace and ResultSaver
writes named JSON artifacts read back verbatim (the manager and saver
sources are not under src/). -/
def applyEvent (env : Env) : Event → Env
  | Event.saveCheckpoint cp => { env with checkpointRecord := some cp }
  | Event.saveSearchFile rs => { env with searchFile := some rs }
  | Event.saveAnswerFile rs => { env with answerFile := some rs }
  | _ => env

/-- The durable environment after a run emitted the given events. -/
def applyEvents (env : Env) (es : List Event) : Env :=
  es.foldl applyEvent env

/-! ## The Memu adapter single-perspective search

`MemuAdapter._search_single_perspective` and `_build_memu_context`
(memu_adapter.py lines 382-453 and 577-617).  The HTTP POST, the
`raise_for_status` check and the JSON parse are summarised by an
`HttpResult` oracle: any exception in that block carries its message. -/

/-- A memory object inside the Memu response JSON; each field is read with
`.get(key, "")`, so absence is represented by `none`. -/
structure MemuMemory where
  content : Option String
  memory_id : Option String
  category : Option String
  created_at : Option String
  happened_at : Option String
deriving DecidableEq, Repr

/-- One entry of `related_memories` in the Memu response JSON. -/
structure MemuItem where
  memory : Option MemuMemory
  similarity_score : Option Rat
deriving DecidableEq, Repr

/-- The parsed Memu response body. -/
structure MemuResponse where
  related_memories : Option (List MemuItem)
  total_found : Option Nat
deriving DecidableEq, Repr

/-- Outcome of the HTTP request/parse block: either the exception message
caught by the `except` clause, or the parsed response. -/
inductive HttpResult where
  | failure (err : String)
  | success (body : MemuResponse)
deriving DecidableEq, Repr

/-- Conversion of one related memory to the standard result format
(memu_adapter.py lines 424-436). -/
def memuItemToResultItem (user_id : String) (item : MemuItem) : ResultItem :=
  let memory := item.memory.getD ⟨none, none, none, none, none⟩
  { content := memory.content.getD ""
    score := item.similarity_score.getD 0
    user_id := user_id
    metadata :=
      [("id", MVal.vs (memory.memory_id.getD ""))
      , ("category", MVal.vs (memory.category.getD ""))
      , ("created_at", MVal.vs (memory.created_at.getD ""))
      , ("happened_at", MVal.vs (memory.happened_at.getD ""))] }

/-- String value of a metadata key, with the `.get(key, "")` default. -/
def metaGetStr (m : MetaMap) (k : String) : String :=
  match metaGet m k with
  | some (MVal.vs s) => s
  | _ => ""

/-- The per-memory line of `_build_memu_context` (lines 592-615): index and
content, followed by optional date (the part of happened_at before the
first "T") and category annotations. -/
def memuMemoryText (idx : Nat) (r : ResultItem) : String :=
  let content := r.content
  let happened_at := metaGetStr r.metadata "happened_at"
  let category := metaGetStr r.metadata "category"
  let date_str :=
    if (happened_at.splitOn "T").length > 1 then
      (happened_at.splitOn "T").headD ""
    else happened_at
  let metadata_parts :=
    (if happened_at != "" then ["Date: " ++ date_str] else []) ++
    (if category != "" then ["Category: " ++ category] else [])
  let memory_text := toString idx ++ ". " ++ content
  if metadata_parts.isEmpty then memory_text
  else memory_text ++ " (" ++ String.intercalate ", " metadata_parts ++ ")"

/-- `_build_memu_context` (lines 577-617): the first ten results, numbered
from 1, joined by blank lines; empty input gives the empty string. -/
def buildMemuContext (search_results : List ResultItem) : String :=
  if search_results.isEmpty then ""
  else
    String.intercalate "\n\n"
      ((search_results.take 10).enum.map (fun p => memuMemoryText (p.1 + 1) p.2))

/-- `MemuAdapter._search_single_perspective` (lines 382-453): on any
failure of the HTTP block the exception is absorbed into an empty
SearchResult carrying the error message and the queried user id; on
success the related memories are converted and wrapped together with the
formatted context. -/
def searchSinglePerspective (http : HttpResult) (query conversation_id user_id : String)
    (top_k : Nat) (min_similarity : Rat) : SearchResult :=
  match http with
  | HttpResult.failure e =>
    { query := query
      conversation_id := conversation_id
      results := []
      retrieval_metadata := [("error", MVal.vs e), ("user_ids", MVal.vls [user_id])] }
  | HttpResult.success result =>
    let related_memories := result.related_memories.getD []
    let search_results := related_memories.map (memuItemToResultItem user_id)
    let formatted_context := buildMemuContext search_results
    { query := query
      conversation_id := conversation_id
      results := search_results
      retrieval_metadata :=
        [("system", MVal.vs "memu")
        , ("user_ids", MVal.vls [user_id])
        , ("top_k", MVal.vn top_k)
        , ("min_similarity", MVal.vr min_similarity)
        , ("total_found", MVal.vn (result.total_found.getD search_results.length))
        , ("formatted_context", MVal.vs formatted_context)] }

/-! ## Concrete data used by witnesses and counterexamples -/

/-- A QAPair of the given category, attached to conversation "conv-1". -/
def exQAPair (c : String) : QAPair :=
  ⟨"q" ++ c, "a" ++ c, c, [("conversation_id", MVal.vs "conv-1")]⟩

/-- A sample message. -/
def exMessage : Message := ⟨"Alice", "user", none, "hello"⟩

/-- A sample conversation with five messages. -/
def exConversation : Conversation :=
  ⟨"conv-1", [exMessage, exMessage, exMessage, exMessage, exMessage], []⟩

/-- A second conversation with one message. -/
def exConversation2 : Conversation := ⟨"conv-2", [exMessage], []⟩

/-- A sample dataset: two conversations and QAPairs of categories
1, 2, 5, 5, 3, all belonging to the first conversation. -/
def exDataset : Dataset :=
  ⟨"ds", [exConversation, exConversation2],
   [exQAPair "1", exQAPair "2", exQAPair "5", exQAPair "5", exQAPair "3"], []⟩

/-- A sample search result. -/
def exSearchResult : SearchResult := ⟨"q1", "conv-1", [], []⟩

/-- A sample answer result. -/
def exAnswerResult : AnswerResult :=
  ⟨"0", "q1", "ans", "a1", "1", "conv-1", "", []⟩

/-- A sample evaluation result. -/
def exEvaluationResult : EvaluationResult := ⟨1, 1, 1, [], []⟩

/-- Sample stage executors. -/
def exOracles : StageOracles :=
  ⟨fun _ => [exSearchResult], fun _ _ => [exAnswerResult], fun _ => exEvaluationResult⟩

/-! ## Helper notions and lemmas about the stage machine -/

/-- The run state a stage step leaves behind, also on the error path. -/
def stepState : Except (RunError × RunState) RunState → RunState
  | Except.ok st => st
  | Except.error (_, st) => st

/-- Recogniser for the post-add wait event. -/
def isWaitEvent : Event → Bool
  | Event.postAddWait _ => true
  | _ => false

theorem loadCheckpointStep_events (cfg : PipelineConfig) (env : Env) (st : RunState) :
    (loadCheckpointStep cfg env st).events = st.events := by
  unfold loadCheckpointStep
  cases cfg.use_checkpoint
  · rfl
  · cases env.checkpointRecord <;> rfl

theorem loadCheckpointStep_completed (cfg : PipelineConfig) (env : Env) :
    (loadCheckpointStep cfg env initState).completed_stages = loadedCompleted cfg env := by
  unfold loadCheckpointStep loadedCompleted
  cases cfg.use_checkpoint
  · rfl
  · cases env.checkpointRecord <;> rfl

theorem loadCheckpointStep_locals (cfg : PipelineConfig) (env : Env) (st : RunState) :
    (loadCheckpointStep cfg env st).search_results = st.search_results ∧
    (loadCheckpointStep cfg env st).answer_results = st.answer_results := by
  unfold loadCheckpointStep
  cases cfg.use_checkpoint
  · exact ⟨rfl, rfl⟩
  · cases env.checkpointRecord <;> exact ⟨rfl, rfl⟩

theorem insertStage_contains_self (s : String) (l : List String) :
    (insertStage s l).contains s = true := by
  unfold insertStage
  split
  · assumption
  · simp

theorem mem_insertStage (s t : String) (l : List String) (h : t ≠ s) :
    t ∈ insertStage s l ↔ t ∈ l := by
  unfold insertStage
  split
  · exact Iff.rfl
  · simp [h]

theorem insertStage_contains_other (s t : String) (l : List String) (h : s ≠ t) :
    (insertStage s l).contains t = l.contains t := by
  unfold insertStage
  split
  · rfl
  · simp [h, Ne.symm h]

theorem addStage_skip (cfg : PipelineConfig) (stages : List String) (st : RunState)
    (h : (stages.contains "add" && !(st.completed_stages.contains "add")) = false) :
    addStage cfg stages st = (emit Event.buildLazyIndex st, false) := by
  unfold addStage
  rw [h]
  simp

theorem addStage_flag (cfg : PipelineConfig) (stages : List String) (st : RunState) :
    (addStage cfg stages st).2
      = (stages.contains "add" && !(st.completed_stages.contains "add")) := by
  unfold addStage
  split
  · simp_all
  · simp_all

theorem addStage_wait (cfg : PipelineConfig) (stages : List String) (st : RunState) :
    ((addStage cfg stages st).1.events.any isWaitEvent)
      = st.events.any isWaitEvent := by
  unfold addStage
  repeat' split
  all_goals simp [emit, isWaitEvent]

theorem addStage_completed_other (cfg : PipelineConfig) (stages : List String)
    (st : RunState) (t : String) (h : t ≠ "add") :
    (addStage cfg stages st).1.completed_stages.contains t
      = st.completed_stages.contains t := by
  unfold addStage
  repeat' split
  all_goals simp [emit, mem_insertStage "add" t st.completed_stages h]

theorem addStage_locals (cfg : PipelineConfig) (stages : List String) (st : RunState) :
    (addStage cfg stages st).1.search_results = st.search_results ∧
    (addStage cfg stages st).1.answer_results = st.answer_results ∧
    (addStage cfg stages st).1.search_results_data = st.search_results_data ∧
    (addStage cfg stages st).1.answer_results_data = st.answer_results_data := by
  unfold addStage
  refine ⟨?_, ?_, ?_, ?_⟩ <;> (repeat' split) <;> rfl

theorem postAddWaitStep_wait (cfg : PipelineConfig) (stages : List String)
    (b : Bool) (st : RunState) :
    ((postAddWaitStep cfg stages b st).events.any isWaitEvent)
      = ((b && (decide (cfg.post_add_wait_seconds > 0) && stages.contains "search"))
          || st.events.any isWaitEvent) := by
  unfold postAddWaitStep
  cases b
  · simp
  · rw [if_pos rfl]
    cases hc : (decide (cfg.post_add_wait_seconds > 0) && stages.contains "search")
    · simp
    · simp [emit, isWaitEvent]

theorem postAddWaitStep_rest (cfg : PipelineConfig) (stages : List String)
    (b : Bool) (st : RunState) :
    (postAddWaitStep cfg stages b st).completed_stages = st.completed_stages ∧
    (postAddWaitStep cfg stages b st).search_results = st.search_results ∧
    (postAddWaitStep cfg stages b st).answer_results = st.answer_results ∧
    (postAddWaitStep cfg stages b st).search_results_data = st.search_results_data ∧
    (postAddWaitStep cfg stages b st).answer_results_data = st.answer_results_data := by
  unfold postAddWaitStep
  refine ⟨?_, ?_, ?_, ?_, ?_⟩ <;> cases b <;> (repeat' split) <;> rfl

theorem searchStage_wait (cfg : PipelineConfig) (env : Env) (orc : StageOracles)
    (ds : Dataset) (stages : List String) (st : RunState)
    (r : Except (RunError × RunState) RunState)
    (h : searchStage cfg env orc ds stages st = r) :
    ((stepState r).events.any isWaitEvent) = st.events.any isWaitEvent := by
  unfold searchStage at h
  simp only [] at h
  repeat' split at h
  all_goals subst h
  all_goals simp [stepState, emit, isWaitEvent]

theorem answerStage_wait (cfg : PipelineConfig) (env : Env) (orc : StageOracles)
    (ds : Dataset) (stages : List String) (st : RunState)
    (r : Except (RunError × RunState) RunState)
    (h : answerStage cfg env orc ds stages st = r) :
    ((stepState r).events.any isWaitEvent) = st.events.any isWaitEvent := by
  unfold answerStage at h
  simp only [] at h
  repeat' split at h
  all_goals subst h
  all_goals simp [stepState, emit, isWaitEvent]

theorem evaluateStage_wait (cfg : PipelineConfig) (orc : StageOracles)
    (stages : List String) (st : RunState)
    (r : Except (RunError × RunState) RunState)
    (h : evaluateStage cfg orc stages st = r) :
    ((stepState r).events.any isWaitEvent) = st.events.any isWaitEvent := by
  unfold evaluateStage at h
  simp only [] at h
  repeat' split at h
  all_goals subst h
  all_goals simp [stepState, emit, isWaitEvent]

theorem answerStage_events_grow (cfg : PipelineConfig) (env : Env) (orc : StageOracles)
    (ds : Dataset) (stages : List String) (st : RunState)
    (r : Except (RunError × RunState) RunState)
    (h : answerStage cfg env orc ds stages st = r) :
    List.IsPrefix st.events (stepState r).events := by
  unfold answerStage at h
  simp only [] at h
  repeat' split at h
  all_goals subst h
  all_goals simp only [stepState, emit, List.append_assoc]
  all_goals first
    | exact List.prefix_refl _
    | exact List.prefix_append _ _

theorem evaluateStage_events_grow (cfg : PipelineConfig) (orc : StageOracles)
    (stages : List String) (st : RunState)
    (r : Except (RunError × RunState) RunState)
    (h : evaluateStage cfg orc stages st = r) :
    List.IsPrefix st.events (stepState r).events := by
  unfold evaluateStage at h
  simp only [] at h
  repeat' split at h
  all_goals subst h
  all_goals simp only [stepState, emit, List.append_assoc]
  all_goals first
    | exact List.prefix_refl _
    | exact List.prefix_append _ _

theorem runStages_wait (cfg : PipelineConfig) (env : Env) (orc : StageOracles)
    (ds : Dataset) (stages : List String) (st : RunState) :
    ((stepState (runStages cfg env orc ds stages st)).events.any isWaitEvent)
      = st.events.any isWaitEvent := by
  unfold runStages
  cases h1 : searchStage cfg env orc ds stages st with
  | error e =>
    obtain ⟨er, est⟩ := e
    have w1 := searchStage_wait cfg env orc ds stages st _ h1
    simpa [stepState] using w1
  | ok st1 =>
    have w1 := searchStage_wait cfg env orc ds stages st _ h1
    simp only [stepState] at w1
    cases h2 : answerStage cfg env orc ds stages st1 with
    | error e =>
      obtain ⟨er, est⟩ := e
      have w2 := answerStage_wait cfg env orc ds stages st1 _ h2
      simp only [stepState] at w2
      simp [stepState, h2, w2, w1]
    | ok st2 =>
      have w2 := answerStage_wait cfg env orc ds stages st1 _ h2
      simp only [stepState] at w2
      cases h3 : evaluateStage cfg orc stages st2 with
      | error e =>
        obtain ⟨er, est⟩ := e
        have w3 := evaluateStage_wait cfg orc stages st2 _ h3
        simp only [stepState] at w3
        simp [stepState, h2, h3, w3, w2, w1]
      | ok st3 =>
        have w3 := evaluateStage_wait cfg orc stages st2 _ h3
        simp only [stepState] at w3
        simp [stepState, emit, isWaitEvent, h2, h3, w3, w2, w1]

theorem run_events_eq (cfg : PipelineConfig) (env : Env) (orc : StageOracles)
    (d : Dataset) (stagesArg : Option (List String)) (smoke : Bool) (sm sq : Nat) :
    (run cfg env orc d stagesArg smoke sm sq).events
      = (stepState (runStages cfg env orc
          (runPreprocess d smoke sm sq cfg.filter_categories).used (stageListOf stagesArg)
          (postAddWaitStep cfg (stageListOf stagesArg)
            (addStage cfg (stageListOf stagesArg) (loadCheckpointStep cfg env initState)).2
            (addStage cfg (stageListOf stagesArg)
              (loadCheckpointStep cfg env initState)).1))).events := by
  unfold run
  cases h : runStages cfg env orc
      (runPreprocess d smoke sm sq cfg.filter_categories).used (stageListOf stagesArg)
      (postAddWaitStep cfg (stageListOf stagesArg)
        (addStage cfg (stageListOf stagesArg) (loadCheckpointStep cfg env initState)).2
        (addStage cfg (stageListOf stagesArg)
          (loadCheckpointStep cfg env initState)).1) with
  | ok st => simp [h, stepState]
  | error e => simp [h, stepState]

/-- The Search stage when it is neither requested nor needed by a later
requested stage (the literal "eval" tested by the source included): it
never fails, never executes the executor, and leaves the completed set and
the answer locals unchanged; at most it reloads checkpointed search data. -/
theorem searchStage_no_run (cfg : PipelineConfig) (env : Env) (orc : StageOracles)
    (ds : Dataset) (stages : List String) (st : RunState)
    (r : Except (RunError × RunState) RunState)
    (h : searchStage cfg env orc ds stages st = r)
    (h1 : stages.contains "search" = false)
    (h2 : stages.contains "answer" = false)
    (h3 : stages.contains "eval" = false) :
    ∃ st2, r = Except.ok st2 ∧
      st2.completed_stages = st.completed_stages ∧
      st2.answer_results_data = st.answer_results_data ∧
      st2.answer_results = st.answer_results ∧
      (st2.events = st.events ∨ st2.events = st.events ++ [Event.loadSearchFile]) := by
  unfold searchStage at h
  simp only [] at h
  repeat' split at h
  all_goals first
    | exact ⟨_, h.symm, rfl, rfl, rfl, Or.inl rfl⟩
    | exact ⟨_, h.symm, rfl, rfl, rfl, Or.inr (by simp [emit])⟩
    | simp_all

/-- The Answer stage in the skip-but-needed case with the artifact absent:
it raises the missing-prerequisite FileNotFoundError naming the answer
stage. -/
theorem answerStage_needed_missing (cfg : PipelineConfig) (env : Env)
    (orc : StageOracles) (ds : Dataset) (stages : List String) (st : RunState)
    (h1 : stages.contains "answer" = false)
    (h2 : st.completed_stages.contains "answer" = false)
    (h3 : stages.contains "evaluate" = true)
    (h4 : env.answerFile = none) :
    answerStage cfg env orc ds stages st
      = Except.error (RunError.fileNotFound
          "Answer results not found. Please run \x27answer\x27 stage first.", st) := by
  have h1m : "answer" ∉ stages := by simpa using h1
  have h2m : "answer" ∉ st.completed_stages := by simpa using h2
  have h3m : "evaluate" ∈ stages := by simpa using h3
  unfold answerStage
  simp [h1m, h2m, h3m, h4]

/-! ## Claims about the pre-processing transforms (C1, C2, C4) -/

/-- C1.  Category filtering: for every dataset and every non-empty
category filter set, the QAPair list the stages run on after the
pre-processing step of run() is exactly the filter-free pre-processing
output with every QAPair of a filtered category removed: no surviving
QAPair has its category in the filter set, the survivors form a sublist
(hence keep their original relative order), and every QAPair whose
category is not in the filter set survives. -/
theorem c1_category_filter (d : Dataset) (smoke : Bool) (sm sq : Nat)
    (fs : List String) (h : fs ≠ []) :
    (runPreprocess d smoke sm sq fs).used.qa_pairs
      = categoryFilteredQAPairs ((runPreprocess d smoke sm sq []).used.qa_pairs) fs ∧
    (∀ qa ∈ (runPreprocess d smoke sm sq fs).used.qa_pairs,
      fs.contains qa.category = false) ∧
    List.Sublist ((runPreprocess d smoke sm sq fs).used.qa_pairs)
      ((runPreprocess d smoke sm sq []).used.qa_pairs) ∧
    (∀ qa ∈ (runPreprocess d smoke sm sq []).used.qa_pairs,
      fs.contains qa.category = false →
      qa ∈ (runPreprocess d smoke sm sq fs).used.qa_pairs) := by
  have hfs : fs.isEmpty = false := by
    cases fs with
    | nil => exact absurd rfl h
    | cons a l => rfl
  have hmain : (runPreprocess d smoke sm sq fs).used.qa_pairs
      = categoryFilteredQAPairs ((runPreprocess d smoke sm sq []).used.qa_pairs) fs := by
    simp [runPreprocess, hfs]
  refine ⟨hmain, ?_, ?_, ?_⟩
  · intro qa hqa
    rw [hmain] at hqa
    have := (List.mem_filter.mp hqa).2
    simpa using this
  · rw [hmain]
    exact List.filter_sublist _
  · intro qa hqa hcat
    rw [hmain]
    exact List.mem_filter.mpr ⟨hqa, by simpa using hcat⟩

/-- Witness for C1 at the spec example: categories [1, 2, 5, 5, 3] with
filter set 5 leave exactly three QAPairs, of categories 1, 2, 3 in that
order. -/
theorem c1_category_filter_witness :
    (["5"] : List String) ≠ [] ∧
    (runPreprocess exDataset false 10 3 ["5"]).used.qa_pairs.map QAPair.category
      = ["1", "2", "3"] ∧
    (runPreprocess exDataset false 10 3 ["5"]).used.qa_pairs.length = 3 ∧
    (∀ qa ∈ (runPreprocess exDataset false 10 3 ["5"]).used.qa_pairs,
      (["5"] : List String).contains qa.category = false) :=
  ⟨by decide, by decide, by decide,
   (c1_category_filter exDataset false 10 3 ["5"] (by decide)).2.1⟩

/-- Counterexample for C2.  The pre-processing transforms of run() are not
side-effect-free for the caller-supplied Dataset object: category
filtering with filter set 5 changes the object (its qa_pairs are
reassigned in place), and smoke-test truncation with message_count 3
changes it as well (the first conversation loses messages in place). -/
theorem c2_side_effect_counterexample :
    (runPreprocess exDataset false 10 3 ["5"]).callerAfter ≠ exDataset ∧
    (runPreprocess exDataset true 3 0 []).callerAfter ≠ exDataset := by
  constructor
  · decide
  · decide

/-- C2 as amended.  The pre-processing transforms mutate the
caller-supplied Dataset object: without smoke test, a non-empty category
filter reassigns its qa_pairs to the filtered list (with an empty filter
nothing changes); with smoke test on a dataset that has a conversation,
the caller object keeps all conversations and all QAPairs but its first
conversation is truncated in place to the first message_count messages. -/
theorem c2_preprocess_mutation (d : Dataset) (sm sq : Nat) (fs : List String) :
    ((runPreprocess d false sm sq fs).callerAfter =
      if fs.isEmpty then d
      else { d with qa_pairs := categoryFilteredQAPairs d.qa_pairs fs }) ∧
    (∀ c rest, d.conversations = c :: rest →
      (runPreprocess d true sm sq fs).callerAfter =
        { d with conversations := truncateMessages c sm :: rest }) := by
  constructor
  · by_cases hfs : fs.isEmpty
    · simp [runPreprocess, hfs]
    · simp only [Bool.not_eq_true] at hfs
      simp [runPreprocess, hfs]
  · intro c rest hconv
    by_cases hfs : fs.isEmpty
    · simp [runPreprocess, hfs, callerAfterSmoke, hconv]
    · simp only [Bool.not_eq_true] at hfs
      simp [runPreprocess, hfs, callerAfterSmoke, hconv]

/-- Witness for the amended C2 at a concrete dataset. -/
theorem c2_preprocess_mutation_witness :
    (runPreprocess exDataset false 10 3 ["5"]).callerAfter =
      { exDataset with qa_pairs := categoryFilteredQAPairs exDataset.qa_pairs ["5"] } ∧
    (runPreprocess exDataset true 3 0 []).callerAfter =
      { exDataset with conversations := truncateMessages exConversation 3 :: [exConversation2] } := by
  refine ⟨?_, ?_⟩
  · have := (c2_preprocess_mutation exDataset 10 3 ["5"]).1
    simpa using this
  · exact (c2_preprocess_mutation exDataset 3 0 []).2 exConversation [exConversation2] rfl

/-- C4.  Smoke-test truncation: on a dataset whose conversations are
c :: rest, the result keeps exactly the first conversation, with its first
min(message_count, length) messages when message_count is positive and all
messages when it is 0, and keeps the first question_count QAPairs whose
conversation_id metadata is the kept conversation's id (all of them when
question_count is 0), in original relative order. -/
theorem c4_smoke_truncation (d : Dataset) (c : Conversation) (rest : List Conversation)
    (nm nq : Nat) (h : d.conversations = c :: rest) :
    (applySmokeTest d nm nq).conversations = [truncateMessages c nm] ∧
    (truncateMessages c nm).conversation_id = c.conversation_id ∧
    (truncateMessages c nm).messages
      = (if nm > 0 then c.messages.take nm else c.messages) ∧
    (truncateMessages c nm).messages.length
      = (if nm > 0 then min nm c.messages.length else c.messages.length) ∧
    (applySmokeTest d nm nq).qa_pairs
      = (if nq > 0 then (convQAPairs d.qa_pairs c.conversation_id).take nq
         else convQAPairs d.qa_pairs c.conversation_id) ∧
    List.Sublist ((applySmokeTest d nm nq).qa_pairs) d.qa_pairs := by
  have hconvs : (applySmokeTest d nm nq).conversations = [truncateMessages c nm] := by
    simp [applySmokeTest, h]
  have hqa : (applySmokeTest d nm nq).qa_pairs
      = (if nq > 0 then (convQAPairs d.qa_pairs c.conversation_id).take nq
         else convQAPairs d.qa_pairs c.conversation_id) := by
    simp [applySmokeTest, h, selectedQAPairs]
  refine ⟨hconvs, ?_, ?_, ?_, hqa, ?_⟩
  · by_cases hnm : nm > 0 <;> simp [truncateMessages, hnm]
  · by_cases hnm : nm > 0 <;> simp [truncateMessages, hnm]
  · by_cases hnm : nm > 0 <;> simp [truncateMessages, hnm]
  · rw [hqa]
    by_cases hnq : nq > 0
    · simp only [hnq, if_true]
      exact ((convQAPairs d.qa_pairs c.conversation_id).take_sublist nq).trans
        (List.filter_sublist _)
    · simp only [hnq, if_false]
      exact List.filter_sublist _

/-- Witness for C4: conversations [C1, C2] with message_count 3 keep one
conversation with min(3, 5) = 3 messages, and question_count 2 keeps the
first two of its QAPairs. -/
theorem c4_smoke_truncation_witness :
    exDataset.conversations = exConversation :: [exConversation2] ∧
    (applySmokeTest exDataset 3 2).conversations = [truncateMessages exConversation 3] ∧
    (truncateMessages exConversation 3).messages.length = min 3 5 ∧
    (applySmokeTest exDataset 3 2).qa_pairs.map QAPair.category = ["1", "2"] :=
  ⟨rfl,
   (c4_smoke_truncation exDataset exConversation [exConversation2] 3 2 rfl).1,
   by decide, by decide⟩

/-! ## Claim about the Memu adapter (C10) -/

/-- C10.  Memu search error absorption: when the HTTP request or response
parsing of the single-perspective search fails with any error message, the
adapter returns a SearchResult carrying the original query and
conversation id, an empty results list, and retrieval metadata holding the
error string and the queried user id, instead of propagating the
exception. -/
theorem c10_memu_error_absorption (e query conversation_id user_id : String)
    (top_k : Nat) (min_similarity : Rat) :
    (searchSinglePerspective (HttpResult.failure e) query conversation_id user_id
        top_k min_similarity).query = query ∧
    (searchSinglePerspective (HttpResult.failure e) query conversation_id user_id
        top_k min_similarity).conversation_id = conversation_id ∧
    (searchSinglePerspective (HttpResult.failure e) query conversation_id user_id
        top_k min_similarity).results = [] ∧
    metaGet (searchSinglePerspective (HttpResult.failure e) query conversation_id user_id
        top_k min_similarity).retrieval_metadata "error" = some (MVal.vs e) ∧
    metaGet (searchSinglePerspective (HttpResult.failure e) query conversation_id user_id
        top_k min_similarity).retrieval_metadata "user_ids" = some (MVal.vls [user_id]) :=
  ⟨rfl, rfl, rfl, rfl, rfl⟩

/-! ## Claims about the stage machine of run() (C3, C5, C6, C7, C8, C9) -/

/-- C6.  Post-ingest wait gating: in every run the blocking post-add wait
occurs if and only if the Add stage actually executed in this run (it was
requested and not already completed), the configured post_add_wait_seconds
is positive, and "search" is among the requested stages.  In particular
the wait never occurs when Add was skipped as completed or not
requested. -/
theorem c6_post_add_wait_iff (cfg : PipelineConfig) (env : Env) (orc : StageOracles)
    (d : Dataset) (stagesArg : Option (List String)) (smoke : Bool) (sm sq : Nat) :
    ((run cfg env orc d stagesArg smoke sm sq).events.any isWaitEvent)
      = (((stageListOf stagesArg).contains "add"
            && !((loadedCompleted cfg env).contains "add"))
          && (decide (cfg.post_add_wait_seconds > 0)
            && (stageListOf stagesArg).contains "search")) := by
  rw [run_events_eq, runStages_wait, postAddWaitStep_wait, addStage_wait,
    loadCheckpointStep_events]
  rw [addStage_flag, loadCheckpointStep_completed]
  simp [initState]

/-- C5.  Missing prerequisite for Evaluate: a run requesting only the
"evaluate" stage, with the answer stage not completed in the checkpoint
and no persisted answer_results artifact, fails with the FileNotFoundError
naming the answer stage; the evaluator is never invoked and no evaluation
result is ever persisted. -/
theorem c5_missing_answer_prerequisite (cfg : PipelineConfig) (env : Env)
    (orc : StageOracles) (d : Dataset) (smoke : Bool) (sm sq : Nat)
    (hcp : ∀ cp, env.checkpointRecord = some cp →
      cp.completed_stages.contains "answer" = false)
    (hfile : env.answerFile = none) :
    runErrorOf (run cfg env orc d (some ["evaluate"]) smoke sm sq)
      = some (RunError.fileNotFound
          "Answer results not found. Please run \x27answer\x27 stage first.") ∧
    Event.runEvaluateStage ∉ (run cfg env orc d (some ["evaluate"]) smoke sm sq).events ∧
    (∀ er : EvaluationResult,
      Event.saveEvalFile er ∉ (run cfg env orc d (some ["evaluate"]) smoke sm sq).events) := by
  have hc0 : (loadedCompleted cfg env).contains "answer" = false := by
    unfold loadedCompleted
    cases hub : cfg.use_checkpoint
    · simp
    · cases hrec : env.checkpointRecord with
      | none => simp
      | some cp => simpa using hcp cp hrec
  have hev0 : (loadCheckpointStep cfg env initState).events = [] := by
    rw [loadCheckpointStep_events]
    rfl
  have haddskip : addStage cfg ["evaluate"] (loadCheckpointStep cfg env initState)
      = (emit Event.buildLazyIndex (loadCheckpointStep cfg env initState), false) :=
    addStage_skip _ _ _ (by simp)
  obtain ⟨st2, hok, hcomp, hard, hares, hev⟩ :=
    searchStage_no_run cfg env orc
      (runPreprocess d smoke sm sq cfg.filter_categories).used ["evaluate"]
      (emit Event.buildLazyIndex (loadCheckpointStep cfg env initState)) _ rfl
      (by simp) (by simp) (by simp)
  have hcomp2 : st2.completed_stages.contains "answer" = false := by
    rw [hcomp]
    show (loadCheckpointStep cfg env initState).completed_stages.contains "answer" = false
    rw [loadCheckpointStep_completed]
    exact hc0
  have hans := answerStage_needed_missing cfg env orc
    (runPreprocess d smoke sm sq cfg.filter_categories).used ["evaluate"] st2
    (by simp) hcomp2 (by simp) hfile
  have hrs : runStages cfg env orc
      (runPreprocess d smoke sm sq cfg.filter_categories).used ["evaluate"]
      (emit Event.buildLazyIndex (loadCheckpointStep cfg env initState))
      = Except.error (RunError.fileNotFound
          "Answer results not found. Please run \x27answer\x27 stage first.", st2) := by
    unfold runStages
    rw [hok]
    simp only [hans]
  have hrun : run cfg env orc d (some ["evaluate"]) smoke sm sq
      = ⟨(runPreprocess d smoke sm sq cfg.filter_categories).callerAfter, st2.events,
         Except.error (RunError.fileNotFound
           "Answer results not found. Please run \x27answer\x27 stage first.")⟩ := by
    unfold run
    simp only [stageListOf, haddskip]
    have hpw : postAddWaitStep cfg ["evaluate"] false
        (emit Event.buildLazyIndex (loadCheckpointStep cfg env initState))
        = emit Event.buildLazyIndex (loadCheckpointStep cfg env initState) := rfl
    simp only [hpw, hrs]
  rw [hrun]
  have hevset : st2.events = [Event.buildLazyIndex]
      ∨ st2.events = [Event.buildLazyIndex, Event.loadSearchFile] := by
    rcases hev with hcase | hcase <;>
      simp [hcase, emit, hev0]
  refine ⟨rfl, ?_, ?_⟩
  · rcases hevset with hcase | hcase <;> simp [hcase]
  · intro er
    rcases hevset with hcase | hcase <;> simp [hcase]

/-- C9.  Evaluate-stage checkpoint save requires materialized search
results: with checkpointing enabled, no checkpoint record, and only
"evaluate" requested while answer_results exist on disk, the evaluate
stage runs but its checkpoint save falls back to iterating the
search_results local, which is None, so the run faults with a TypeError
and no checkpoint is ever written. -/
theorem c9_evaluate_save_faults (cfg : PipelineConfig) (env : Env) (orc : StageOracles)
    (d : Dataset) (smoke : Bool) (sm sq : Nat) (ars : List AnswerResult)
    (hck : cfg.use_checkpoint = true)
    (hrec : env.checkpointRecord = none)
    (hfile : env.answerFile = some ars) :
    runErrorOf (run cfg env orc d (some ["evaluate"]) smoke sm sq)
      = some RunError.typeErrorNoneNotIterable ∧
    Event.runEvaluateStage ∈ (run cfg env orc d (some ["evaluate"]) smoke sm sq).events ∧
    (∀ cp : CheckpointData,
      Event.saveCheckpoint cp ∉ (run cfg env orc d (some ["evaluate"]) smoke sm sq).events) := by
  have hrun : run cfg env orc d (some ["evaluate"]) smoke sm sq
      = ⟨(runPreprocess d smoke sm sq cfg.filter_categories).callerAfter,
         [Event.buildLazyIndex, Event.loadAnswerFile, Event.runEvaluateStage,
          Event.saveEvalFile (orc.evalExec (some ars))],
         Except.error RunError.typeErrorNoneNotIterable⟩ := by
    unfold run runStages loadCheckpointStep addStage postAddWaitStep searchStage
      answerStage evaluateStage serializeSearchFallback stageListOf initState
    simp [hck, hrec, hfile, emit, insertStage, truthy, lvarToOption]
  rw [hrun]
  refine ⟨rfl, by simp, ?_⟩
  intro cp
  simp

/-- Witness for C9 at a concrete configuration and dataset. -/
theorem c9_evaluate_save_faults_witness :
    runErrorOf (run ⟨true, [], 0⟩ ⟨none, none, some [exAnswerResult]⟩ exOracles exDataset
        (some ["evaluate"]) false 10 3)
      = some RunError.typeErrorNoneNotIterable ∧
    Event.runEvaluateStage ∈ (run ⟨true, [], 0⟩ ⟨none, none, some [exAnswerResult]⟩
        exOracles exDataset (some ["evaluate"]) false 10 3).events ∧
    (∀ cp : CheckpointData,
      Event.saveCheckpoint cp ∉ (run ⟨true, [], 0⟩ ⟨none, none, some [exAnswerResult]⟩
        exOracles exDataset (some ["evaluate"]) false 10 3).events) :=
  c9_evaluate_save_faults ⟨true, [], 0⟩ ⟨none, none, some [exAnswerResult]⟩ exOracles
    exDataset false 10 3 [exAnswerResult] rfl rfl rfl

/-- Counterexample for C3.  A run requesting only "evaluate", with the
search stage neither requested nor completed and the search artifact
absent, does not fail with a missing-prerequisite error for search and
never attempts to load the search artifact: with checkpointing disabled
and answer_results on disk it completes normally, because the source
guards the skip-but-needed load with the literal "eval" instead of
"evaluate". -/
theorem c3_skip_but_needed_counterexample :
    runOk (run ⟨false, [], 0⟩ ⟨none, none, some [exAnswerResult]⟩ exOracles exDataset
      (some ["evaluate"]) false 10 3) = true ∧
    runErrorOf (run ⟨false, [], 0⟩ ⟨none, none, some [exAnswerResult]⟩ exOracles exDataset
      (some ["evaluate"]) false 10 3) = none ∧
    Event.loadSearchFile ∉ (run ⟨false, [], 0⟩ ⟨none, none, some [exAnswerResult]⟩
      exOracles exDataset (some ["evaluate"]) false 10 3).events := by
  refine ⟨?_, ?_, ?_⟩
  · decide
  · decide
  · decide

/-- The Search stage in the skip-but-needed case as the source implements
it: when search is neither requested nor completed and "answer" is among
the requested stages, it loads the artifact when present and raises the
missing-prerequisite FileNotFoundError when absent. -/
theorem searchStage_needed (cfg : PipelineConfig) (env : Env) (orc : StageOracles)
    (ds : Dataset) (stages : List String) (st : RunState)
    (h1 : stages.contains "search" = false)
    (h2 : st.completed_stages.contains "search" = false)
    (h3 : stages.contains "answer" = true) :
    searchStage cfg env orc ds stages st
      = (match env.searchFile with
         | some srs =>
           Except.ok (emit Event.loadSearchFile
             { st with search_results := LVar.val srs, results_search := some srs })
         | none =>
           Except.error
             (RunError.fileNotFound
               "Search results not found. Please run \x27search\x27 stage first.", st)) := by
  have h1m : "search" ∉ stages := by simpa using h1
  have h2m : "search" ∉ st.completed_stages := by simpa using h2
  have h3m : "answer" ∈ stages := by simpa using h3
  unfold searchStage
  simp [h1m, h2m, h3m]

/-- Events only grow along the rest of the pipeline after the Search
stage: the events of the state the Search stage leaves behind are a prefix
of the events the whole stage chain leaves behind. -/
theorem runStages_events_from_search (cfg : PipelineConfig) (env : Env)
    (orc : StageOracles) (ds : Dataset) (stages : List String) (st : RunState)
    (r : Except (RunError × RunState) RunState)
    (h : runStages cfg env orc ds stages st = r) :
    List.IsPrefix (stepState (searchStage cfg env orc ds stages st)).events
      (stepState r).events := by
  unfold runStages at h
  cases h1 : searchStage cfg env orc ds stages st with
  | error e =>
    rw [h1] at h
    simp only [] at h
    subst h
    exact List.prefix_refl _
  | ok st1 =>
    rw [h1] at h
    simp only [] at h
    simp only [stepState]
    cases h2 : answerStage cfg env orc ds stages st1 with
    | error e =>
      rw [h2] at h
      simp only [] at h
      subst h
      exact answerStage_events_grow cfg env orc ds stages st1 _ h2
    | ok st2 =>
      rw [h2] at h
      simp only [] at h
      have p1 : List.IsPrefix st1.events st2.events := by
        have := answerStage_events_grow cfg env orc ds stages st1 _ h2
        simpa [stepState] using this
      cases h3 : evaluateStage cfg orc stages st2 with
      | error e =>
        rw [h3] at h
        simp only [] at h
        subst h
        exact p1.trans (evaluateStage_events_grow cfg orc stages st2 _ h3)
      | ok st3 =>
        rw [h3] at h
        simp only [] at h
        subst h
        have p2 : List.IsPrefix st2.events st3.events := by
          have := evaluateStage_events_grow cfg orc stages st2 _ h3
          simpa [stepState] using this
        refine (p1.trans p2).trans ?_
        simp only [stepState, emit]
        exact List.prefix_append _ _

/-- C3 as amended.  The skip-but-needed gate of the Search stage tests the
literal "eval", which is not a valid stage name, instead of "evaluate": so
the orchestrator attempts to load the persisted search results exactly
when "answer" is among the requested stages (search neither requested nor
completed), failing with the missing-prerequisite error naming the search
stage when the artifact is absent and recording the artifact load when it
is present; a run requesting only "evaluate" never performs this check
(see the counterexample). -/
theorem c3_skip_but_needed_amended (cfg : PipelineConfig) (env : Env)
    (orc : StageOracles) (d : Dataset) (stages : List String) (smoke : Bool)
    (sm sq : Nat)
    (hs : stages.contains "search" = false)
    (ha : stages.contains "answer" = true)
    (hcomp : (loadedCompleted cfg env).contains "search" = false) :
    (env.searchFile = none →
      runErrorOf (run cfg env orc d (some stages) smoke sm sq)
        = some (RunError.fileNotFound
            "Search results not found. Please run \x27search\x27 stage first.")) ∧
    (∀ srs, env.searchFile = some srs →
      Event.loadSearchFile ∈ (run cfg env orc d (some stages) smoke sm sq).events) := by
  unfold run
  simp only [stageListOf]
  set stW := postAddWaitStep cfg stages
    (addStage cfg stages (loadCheckpointStep cfg env initState)).2
    (addStage cfg stages (loadCheckpointStep cfg env initState)).1 with hstW
  have hcompW : stW.completed_stages.contains "search" = false := by
    rw [hstW]
    rw [(postAddWaitStep_rest cfg stages _ _).1]
    rw [addStage_completed_other cfg stages _ "search" (by decide)]
    rw [loadCheckpointStep_completed]
    exact hcomp
  have hse := searchStage_needed cfg env orc
    (runPreprocess d smoke sm sq cfg.filter_categories).used stages stW hs hcompW ha
  constructor
  · intro hnone
    rw [hnone] at hse
    have hrs : runStages cfg env orc
        (runPreprocess d smoke sm sq cfg.filter_categories).used stages stW
        = Except.error (RunError.fileNotFound
            "Search results not found. Please run \x27search\x27 stage first.", stW) := by
      unfold runStages
      rw [hse]
    simp only [hrs]
    rfl
  · intro srs hsome
    rw [hsome] at hse
    have hmem : Event.loadSearchFile ∈ (stepState (searchStage cfg env orc
        (runPreprocess d smoke sm sq cfg.filter_categories).used stages stW)).events := by
      rw [hse]
      simp [stepState, emit]
    cases hr : runStages cfg env orc
        (runPreprocess d smoke sm sq cfg.filter_categories).used stages stW with
    | ok stF =>
      have hp := runStages_events_from_search cfg env orc
        (runPreprocess d smoke sm sq cfg.filter_categories).used stages stW _ hr
      simp only [stepState] at hp
      simp only [hr]
      exact hp.subset hmem
    | error e =>
      obtain ⟨er, est⟩ := e
      have hp := runStages_events_from_search cfg env orc
        (runPreprocess d smoke sm sq cfg.filter_categories).used stages stW _ hr
      simp only [stepState] at hp
      simp only [hr]
      exact hp.subset hmem

/-- Witness for the amended C3: with stages [answer, evaluate], an empty
checkpoint and no persisted search artifact the run fails naming the
search stage; with the artifact present the load is attempted. -/
theorem c3_skip_but_needed_amended_witness :
    (runErrorOf (run ⟨true, [], 0⟩ ⟨none, none, some [exAnswerResult]⟩ exOracles exDataset
        (some ["answer", "evaluate"]) false 10 3)
      = some (RunError.fileNotFound
          "Search results not found. Please run \x27search\x27 stage first.")) ∧
    Event.loadSearchFile ∈ (run ⟨true, [], 0⟩
        ⟨none, some [exSearchResult], some [exAnswerResult]⟩ exOracles exDataset
        (some ["answer", "evaluate"]) false 10 3).events :=
  ⟨(c3_skip_but_needed_amended ⟨true, [], 0⟩ ⟨none, none, some [exAnswerResult]⟩
      exOracles exDataset ["answer", "evaluate"] false 10 3
      (by decide) (by decide) (by decide)).1 rfl,
   (c3_skip_but_needed_amended ⟨true, [], 0⟩
      ⟨none, some [exSearchResult], some [exAnswerResult]⟩
      exOracles exDataset ["answer", "evaluate"] false 10 3
      (by decide) (by decide) (by decide)).2 [exSearchResult] rfl⟩

/-- Counterexample for C7.  In a run with a fresh checkpoint requesting
stages [answer, evaluate] whose search results are loaded from the
persisted artifact (search neither requested nor completed), the
checkpoint saved after the answer stage re-supplies the search and answer
results but its completed_stages is exactly ["answer"], which does not
include "search" — contradicting the claim that it includes both
stages. -/
theorem c7_checkpoint_counterexample :
    (run ⟨true, [], 0⟩ ⟨none, some [exSearchResult], none⟩ exOracles exDataset
        (some ["answer", "evaluate"]) false 10 3).events
      = [Event.buildLazyIndex, Event.loadSearchFile, Event.runAnswerStage,
         Event.saveAnswerFile [exAnswerResult],
         Event.saveCheckpoint ⟨["answer"], some [exSearchResult], some [exAnswerResult], none⟩,
         Event.runEvaluateStage, Event.saveEvalFile exEvaluationResult,
         Event.saveCheckpoint
           ⟨["answer", "evaluate"], some [exSearchResult], some [exAnswerResult],
            some exEvaluationResult⟩,
         Event.saveReport] ∧
    (["answer"] : List String).contains "search" = false := by
  constructor
  · decide
  · decide

/-- C7 as amended.  Each checkpoint save issued after the answer or the
evaluate stage executes re-supplies the intermediate results: the
answer-stage save carries some search payload together with the new answer
results and marks "answer" completed, but carries "search" in
completed_stages only when it was already in the completed set before the
stage (it is absent in the skip-but-needed path); the evaluate-stage save,
when it succeeds, carries a search payload, an answer payload and the new
evaluation result, and marks "evaluate" completed. -/
theorem c7_cumulative_checkpoint_amended (cfg : PipelineConfig) (env : Env)
    (orc : StageOracles) (ds : Dataset) (stages : List String) (st st2 : RunState)
    (hck : cfg.use_checkpoint = true) :
    (stages.contains "answer" = true →
      st.completed_stages.contains "answer" = false →
      answerStage cfg env orc ds stages st = Except.ok st2 →
      ∃ sp : List SearchResult,
        st2.events = st.events
          ++ [Event.runAnswerStage,
              Event.saveAnswerFile
                (orc.answerExec ds.qa_pairs (lvarToOption st.search_results)),
              Event.saveCheckpoint
                ⟨insertStage "answer" st.completed_stages, some sp,
                 some (orc.answerExec ds.qa_pairs (lvarToOption st.search_results)),
                 none⟩] ∧
        (insertStage "answer" st.completed_stages).contains "answer" = true ∧
        (insertStage "answer" st.completed_stages).contains "search"
          = st.completed_stages.contains "search") ∧
    (stages.contains "evaluate" = true →
      st.completed_stages.contains "evaluate" = false →
      evaluateStage cfg orc stages st = Except.ok st2 →
      ∃ (sp : List SearchResult) (ap : List AnswerResult),
        st2.events = st.events
          ++ [Event.runEvaluateStage,
              Event.saveEvalFile (orc.evalExec (lvarToOption st.answer_results)),
              Event.saveCheckpoint
                ⟨insertStage "evaluate" st.completed_stages, some sp, some ap,
                 some (orc.evalExec (lvarToOption st.answer_results))⟩] ∧
        (insertStage "evaluate" st.completed_stages).contains "evaluate" = true) := by
  constructor
  · intro h1 h2 h3
    unfold answerStage at h3
    rw [h1, h2] at h3
    simp only [Bool.not_false, Bool.and_self, if_pos rfl, hck, eq_self_iff_true,
      if_true] at h3
    repeat' split at h3
    all_goals first
      | exact Except.noConfusion h3
      | (injection h3 with h3e
         subst h3e
         rename_i sp heq
         exact ⟨sp, by simp [emit],
           insertStage_contains_self "answer" st.completed_stages,
           insertStage_contains_other "answer" "search" st.completed_stages (by decide)⟩)
  · intro h1 h2 h3
    unfold evaluateStage at h3
    rw [h1, h2] at h3
    simp only [Bool.not_false, Bool.and_self, if_pos rfl, hck, eq_self_iff_true,
      if_true] at h3
    repeat' split at h3
    all_goals first
      | exact Except.noConfusion h3
      | (injection h3 with h3e
         subst h3e
         exact ⟨‹List SearchResult›, ‹List AnswerResult›, by simp [emit],
           insertStage_contains_self "evaluate" st.completed_stages⟩)

/-- Pipeline state in which the search results local holds a value. -/
def exC7State : RunState :=
  { initState with search_results := LVar.val [exSearchResult] }

/-- The state the Answer stage leaves from exC7State. -/
def exC7After : RunState :=
  stepState (answerStage ⟨true, [], 0⟩ ⟨none, none, none⟩ exOracles exDataset
    ["answer"] exC7State)

theorem c7_cumulative_checkpoint_amended_witness :
    ∃ sp : List SearchResult,
      exC7After.events = exC7State.events
        ++ [Event.runAnswerStage,
            Event.saveAnswerFile
              (exOracles.answerExec exDataset.qa_pairs (lvarToOption exC7State.search_results)),
            Event.saveCheckpoint
              ⟨insertStage "answer" exC7State.completed_stages, some sp,
               some (exOracles.answerExec exDataset.qa_pairs
                 (lvarToOption exC7State.search_results)),
               none⟩] ∧
      (insertStage "answer" exC7State.completed_stages).contains "answer" = true ∧
      (insertStage "answer" exC7State.completed_stages).contains "search"
        = exC7State.completed_stages.contains "search" :=
  (c7_cumulative_checkpoint_amended ⟨true, [], 0⟩ ⟨none, none, none⟩ exOracles exDataset
      ["answer"] exC7State exC7After rfl).1 (by decide) (by decide) rfl

theorem c8_resume_without_rework (fc : List String) (w : Nat) (orc : StageOracles)
    (d : Dataset) (smoke : Bool) (sm sq : Nat) :
    Event.adapterAdd ∉ (run ⟨true, fc, w⟩
        (applyEvents ⟨none, none, none⟩
          (run ⟨true, fc, w⟩ ⟨none, none, none⟩ orc d (some ["add", "search"]) smoke sm sq).events)
        orc d (some ["answer", "evaluate"]) smoke sm sq).events ∧
    Event.runSearchStage ∉ (run ⟨true, fc, w⟩
        (applyEvents ⟨none, none, none⟩
          (run ⟨true, fc, w⟩ ⟨none, none, none⟩ orc d (some ["add", "search"]) smoke sm sq).events)
        orc d (some ["answer", "evaluate"]) smoke sm sq).events ∧
    runOk (run ⟨true, fc, w⟩
        (applyEvents ⟨none, none, none⟩
          (run ⟨true, fc, w⟩ ⟨none, none, none⟩ orc d (some ["add", "search"]) smoke sm sq).events)
        orc d (some ["answer", "evaluate"]) smoke sm sq) = true ∧
    okResultsSearch (run ⟨true, fc, w⟩
        (applyEvents ⟨none, none, none⟩
          (run ⟨true, fc, w⟩ ⟨none, none, none⟩ orc d (some ["add", "search"]) smoke sm sq).events)
        orc d (some ["answer", "evaluate"]) smoke sm sq)
      = some (orc.searchExec (runPreprocess d smoke sm sq fc).used.qa_pairs) := by
  have henv2 : applyEvents ⟨none, none, none⟩
      (run ⟨true, fc, w⟩ ⟨none, none, none⟩ orc d (some ["add", "search"]) smoke sm sq).events
      = ⟨some ⟨["add", "search"],
           some (orc.searchExec (runPreprocess d smoke sm sq fc).used.qa_pairs), none, none⟩,
         some (orc.searchExec (runPreprocess d smoke sm sq fc).used.qa_pairs), none⟩ := by
    unfold run runStages loadCheckpointStep addStage postAddWaitStep searchStage
      answerStage evaluateStage stageListOf initState
    rcases Nat.eq_zero_or_pos w with hw | hw
    · subst hw
      simp [emit, insertStage, truthy, applyEvents, applyEvent]
    · simp [emit, insertStage, truthy, applyEvents, applyEvent, hw]
  rw [henv2]
  cases hsrs : orc.searchExec (runPreprocess d smoke sm sq fc).used.qa_pairs with
  | nil =>
    refine ⟨?_, ?_, ?_, ?_⟩ <;>
      simp [run, runStages, loadCheckpointStep, addStage, postAddWaitStep, searchStage,
        answerStage, evaluateStage, serializeSearchFallback, serializeAnswerFallback,
        stageListOf, initState, runOk, okResultsSearch, emit, insertStage, truthy,
        lvarToOption, hsrs]
  | cons s0 stl =>
    refine ⟨?_, ?_, ?_, ?_⟩ <;>
      simp [run, runStages, loadCheckpointStep, addStage, postAddWaitStep, searchStage,
        answerStage, evaluateStage, serializeSearchFallback, serializeAnswerFallback,
        stageListOf, initState, runOk, okResultsSearch, emit, insertStage, truthy,
        lvarToOption, hsrs]

/-- Witness for C5 at a concrete configuration and dataset. -/
theorem c5_missing_answer_prerequisite_witness :
    runErrorOf (run ⟨false, [], 0⟩ ⟨none, none, none⟩ exOracles exDataset
        (some ["evaluate"]) false 10 3)
      = some (RunError.fileNotFound
          "Answer results not found. Please run \x27answer\x27 stage first.") ∧
    Event.runEvaluateStage ∉ (run ⟨false, [], 0⟩ ⟨none, none, none⟩ exOracles exDataset
        (some ["evaluate"]) false 10 3).events ∧
    (∀ er : EvaluationResult,
      Event.saveEvalFile er ∉ (run ⟨false, [], 0⟩ ⟨none, none, none⟩ exOracles exDataset
        (some ["evaluate"]) false 10 3).events) :=
  c5_missing_answer_prerequisite ⟨false, [], 0⟩ ⟨none, none, none⟩ exOracles exDataset
    false 10 3 (fun cp h => Option.noConfusion h) rfl

end EverMem
